import Mathlib

/-!
Verification development for the numeric core of the `dashboard_parker`
repository (files `utils/congruenciales.py`, `utils/estadisticos.py`,
`utils/validaciones.py`).

Conventions of the shallow embedding:
* Python `int` is `Int`; Python floats produced by exact integer/rational
  arithmetic are modelled as `ℚ`; values produced through `math.sqrt` /
  `np.std` are modelled in `ℝ` via `Real.sqrt`.
* A Python function that can raise an exception is modelled with `Option`:
  `none` means the call raises, `some` is the returned value.  Functions
  whose Python counterpart returns the empty dict `{}` as a sentinel keep
  that sentinel as an explicit `Option` layer documented at the definition.
* Python `x % m` for `m ≠ 0` is floored modulo, i.e. `Int.fmod`; for
  `m = 0` it raises `ZeroDivisionError`.
* `range(n)` for an `int` argument iterates `max(n, 0)` times, i.e.
  `Int.toNat n` times.
-/

/-- One step of a congruential recurrence followed by Python `% m`
(`m ≠ 0` is enforced by the callers' exception guard). -/
def pasoMod (v m : Int) : Int := Int.fmod v m

/-- The loop shared by the three generators: starting from state `x`,
perform `k` iterations of `x := f x % m`, emitting `x / m : ℚ` each time.
This is the body of the `for _ in range(n)` loops in
`congruenciales.py`. -/
def loopCongruencial (f : Int → Int) (m : Int) : Int → Nat → List ℚ
  | _, 0 => []
  | x, Nat.succ k =>
    let x2 := pasoMod (f x) m
    ((x2 : ℚ) / (m : ℚ)) :: loopCongruencial f m x2 k

/-- `congruencial_lineal(semilla, a, c, m, n)` from `congruenciales.py`:
`x[i+1] = (a*x[i] + c) % m`, each output `x[i+1]/m`.  Raises
`ZeroDivisionError` (= `none`) iff `m = 0` and the loop body runs at
least once. -/
def congruencial_lineal (semilla a c m n : Int) : Option (List ℚ) :=
  if m = 0 ∧ 1 ≤ n then none
  else some (loopCongruencial (fun x => a * x + c) m semilla n.toNat)

/-- `congruencial_multiplicativo(semilla, a, m, n)` from
`congruenciales.py`: `x[i+1] = (a*x[i]) % m`. -/
def congruencial_multiplicativo (semilla a m n : Int) : Option (List ℚ) :=
  if m = 0 ∧ 1 ≤ n then none
  else some (loopCongruencial (fun x => a * x) m semilla n.toNat)

/-- `congruencial_cuadratico(semilla, a, b, c, m, n)` from
`congruenciales.py`: `x[i+1] = (a*x[i]^2 + b*x[i] + c) % m`. -/
def congruencial_cuadratico (semilla a b c m n : Int) : Option (List ℚ) :=
  if m = 0 ∧ 1 ≤ n then none
  else some (loopCongruencial (fun x => a * x ^ 2 + b * x + c) m semilla n.toNat)

lemma loopCongruencial_length (f : Int → Int) (m x : Int) (k : Nat) :
    (loopCongruencial f m x k).length = k := by
  induction k generalizing x with
  | zero => rfl
  | succ k ih => simp [loopCongruencial, ih]

lemma loopCongruencial_mem_range (f : Int → Int) {m : Int} (hm : 0 < m)
    (x : Int) (k : Nat) :
    ∀ q ∈ loopCongruencial f m x k, 0 ≤ q ∧ q < 1 := by
  induction k generalizing x with
  | zero => intro q hq; simp [loopCongruencial] at hq
  | succ k ih =>
    intro q hq
    simp only [loopCongruencial, List.mem_cons] at hq
    rcases hq with hq | hq
    · subst hq
      have hmod : pasoMod (f x) m = (f x) % m := by
        simpa [pasoMod] using Int.fmod_eq_emod (f x) (le_of_lt hm)
      have h0 : 0 ≤ (f x) % m := Int.emod_nonneg (f x) (ne_of_gt hm)
      have h1 : (f x) % m < m := Int.emod_lt_of_pos (f x) hm
      constructor
      · apply div_nonneg
        · rw [hmod]; exact_mod_cast h0
        · exact_mod_cast le_of_lt hm
      · rw [div_lt_one (by exact_mod_cast hm)]
        rw [hmod]; exact_mod_cast h1
    · exact ih _ q hq

/-! ### Descriptive statistics (`calcular_estadisticos_basicos`,
`estadisticos.py`) -/

/-- Insert into a sorted list (ascending). -/
def insertarOrdenado (x : ℚ) : List ℚ → List ℚ
  | [] => [x]
  | y :: ys => if x ≤ y then x :: y :: ys else y :: insertarOrdenado x ys

/-- Ascending sort, as performed internally by `np.median` /
`np.percentile`. -/
def ordenar (xs : List ℚ) : List ℚ := xs.foldr insertarOrdenado []

/-- `np.min` on a nonempty array (callers guard emptiness; the default
`0` is unreachable there). -/
def npMin (xs : List ℚ) : ℚ :=
  match xs with
  | [] => 0
  | y :: ys => ys.foldl min y

/-- `np.max` on a nonempty array (same guard remark as `npMin`). -/
def npMax (xs : List ℚ) : ℚ :=
  match xs with
  | [] => 0
  | y :: ys => ys.foldl max y

/-- `np.mean`: sum divided by length. -/
def media (xs : List ℚ) : ℚ := xs.sum / (xs.length : ℚ)

/-- `np.var` (population variance, divisor `N`). -/
def varianza (xs : List ℚ) : ℚ :=
  ((xs.map (fun x => (x - media xs) ^ 2)).sum) / (xs.length : ℚ)

/-- `np.median`: middle of the sorted data, or the mean of the two
middles for even length.  (`np.median([])` is NaN in numpy; all callers
in the repository guard or crash before using it, the `0` default is a
placeholder.) -/
def npMediana (xs : List ℚ) : ℚ :=
  let s := ordenar xs
  let n := s.length
  if n = 0 then 0
  else if n % 2 = 1 then s.getD (n / 2) 0
  else (s.getD (n / 2 - 1) 0 + s.getD (n / 2) 0) / 2

/-- `np.percentile(xs, q)` with the default linear-interpolation method:
with sorted data `s` and `h = (n-1) * q/100`, the result is
`s[floor h] + (h - floor h) * (s[floor h + 1] - s[floor h])`. -/
def percentil (xs : List ℚ) (q : ℚ) : ℚ :=
  let s := ordenar xs
  let n := s.length
  let h : ℚ := ((n : ℚ) - 1) * q / 100
  let i : Nat := (Int.floor h).toNat
  let lo := s.getD i 0
  let hi := s.getD (i + 1) lo
  lo + (h - ((Int.floor h : Int) : ℚ)) * (hi - lo)

/-- The dictionary returned by `calcular_estadisticos_basicos`
(`congruenciales.py`).  `desviacion_estandar` is `np.std = sqrt(np.var)`,
hence valued in `ℝ`. -/
structure EstadisticosBasicos where
  media : ℚ
  mediana : ℚ
  desviacion_estandar : ℝ
  varianza : ℚ
  minimo : ℚ
  maximo : ℚ
  rango : ℚ
  primer_cuartil : ℚ
  tercer_cuartil : ℚ

/-- `calcular_estadisticos_basicos(numeros)` from `congruenciales.py`.
`none` models the empty-dict sentinel returned for an empty input; the
function never raises. -/
noncomputable def calcular_estadisticos_basicos (numeros : List ℚ) :
    Option EstadisticosBasicos :=
  if numeros = [] then none
  else some
    { media := media numeros
      mediana := npMediana numeros
      desviacion_estandar := Real.sqrt (varianza numeros)
      varianza := varianza numeros
      minimo := npMin numeros
      maximo := npMax numeros
      rango := npMax numeros - npMin numeros
      primer_cuartil := percentil numeros 25
      tercer_cuartil := percentil numeros 75 }

/-- Claim C4: `calcular_estadisticos_basicos` returns the empty report on
the empty list, and on `[5.0]` a report with
`min = max = mean = median = 5.0` and
`std = variance = range = IQR (= Q3 - Q1) = 0`. -/
theorem C4_estadisticos_basicos_borde :
    calcular_estadisticos_basicos [] = none ∧
    (calcular_estadisticos_basicos [5]).map (fun r => r.minimo) = some 5 ∧
    (calcular_estadisticos_basicos [5]).map (fun r => r.maximo) = some 5 ∧
    (calcular_estadisticos_basicos [5]).map (fun r => r.media) = some 5 ∧
    (calcular_estadisticos_basicos [5]).map (fun r => r.mediana) = some 5 ∧
    (calcular_estadisticos_basicos [5]).map (fun r => r.desviacion_estandar)
      = some 0 ∧
    (calcular_estadisticos_basicos [5]).map (fun r => r.varianza) = some 0 ∧
    (calcular_estadisticos_basicos [5]).map (fun r => r.rango) = some 0 ∧
    (calcular_estadisticos_basicos [5]).map
      (fun r => r.tercer_cuartil - r.primer_cuartil) = some 0 := by
  have hvar : varianza [5] = 0 := by
    norm_num [varianza, media]
  refine ⟨by simp [calcular_estadisticos_basicos], ?_, ?_, ?_, ?_, ?_, ?_, ?_, ?_⟩ <;>
    simp [calcular_estadisticos_basicos, media, npMediana, npMin, npMax,
      percentil, ordenar, insertarOrdenado, hvar, varianza]

/-! ### Full statistics engine (`estadisticos.py`) -/

/-- Python `max()` over a list: raises `ValueError` (= `none`) on the
empty list. -/
def pyMaxNat (l : List Nat) : Option Nat :=
  match l with
  | [] => none
  | x :: xs => some (xs.foldl max x)

/-- The keys of `collections.Counter(numeros)`: the distinct values in
first-occurrence order. -/
def primerasApariciones (xs : List ℚ) : List ℚ :=
  xs.foldl (fun acc x => if x ∈ acc then acc else acc ++ [x]) []

/-- The multiplicity of `v` in `xs` (a `Counter` entry). -/
def frecuencia (xs : List ℚ) (v : ℚ) : Nat := xs.count v

/-- `calcular_moda(numeros)` from `estadisticos.py`: the values of
maximal multiplicity, in first-occurrence order.  On the empty list
`max(contador.values())` raises `ValueError`, modelled as `none`. -/
def calcular_moda (numeros : List ℚ) : Option (List ℚ) :=
  let claves := primerasApariciones numeros
  match pyMaxNat (claves.map (frecuencia numeros)) with
  | none => none
  | some maxFrecuencia =>
      some (claves.filter (fun v => frecuencia numeros v == maxFrecuencia))

open Classical in
/-- `calcular_asimetria(numeros)` from `estadisticos.py` (Fisher moment
coefficient): `0.0` when the length is `< 3` or the standard deviation is
zero, else `(sum((x-mean)^3)/n) / std^3`. -/
noncomputable def calcular_asimetria (numeros : List ℚ) : ℝ :=
  let n := numeros.length
  if n < 3 then 0
  else
    let desviacion : ℝ := Real.sqrt (varianza numeros)
    if desviacion = 0 then 0
    else (((numeros.map (fun x => (x - media numeros) ^ 3)).sum / (n : ℚ) : ℚ) : ℝ)
      / desviacion ^ 3

open Classical in
/-- `calcular_curtosis(numeros)` from `estadisticos.py` (excess
kurtosis): `0.0` when the length is `< 4` or the standard deviation is
zero, else `(sum((x-mean)^4)/n) / std^4 - 3`. -/
noncomputable def calcular_curtosis (numeros : List ℚ) : ℝ :=
  let n := numeros.length
  if n < 4 then 0
  else
    let desviacion : ℝ := Real.sqrt (varianza numeros)
    if desviacion = 0 then 0
    else (((numeros.map (fun x => (x - media numeros) ^ 4)).sum / (n : ℚ) : ℚ) : ℝ)
      / desviacion ^ 4 - 3

/-- `np.histogram(xs, bins)`: equal-width bins spanning
`[min xs, max xs]` (numpy widens a degenerate span by `0.5` on each side,
and uses the span `[0, 1]` for empty data); every bin is right-open
except the last, which is right-closed.  Returns
`(frequencies, edges)`. -/
def npHistograma (xs : List ℚ) (bins : Nat) : List Nat × List ℚ :=
  let lo : ℚ :=
    if xs = [] then 0
    else if npMin xs = npMax xs then npMin xs - 1/2 else npMin xs
  let hi : ℚ :=
    if xs = [] then 1
    else if npMin xs = npMax xs then npMax xs + 1/2 else npMax xs
  let borde : Nat → ℚ := fun i => lo + (hi - lo) * i / bins
  let frecuencias := (List.range bins).map (fun i =>
    (xs.filter (fun x =>
      decide (borde i ≤ x) &&
        (if i + 1 = bins then decide (x ≤ borde (i + 1))
         else decide (x < borde (i + 1))))).length)
  (frecuencias, (List.range (bins + 1)).map borde)

/-- The dictionary returned by `generar_histograma` (the formatted
`bins_ranges` string labels are elided). -/
structure HistogramaDatos where
  frecuencias : List Nat
  bins_edges : List ℚ
  bins_centers : List ℚ
  ancho_bin : ℚ

/-- `generar_histograma(numeros, bins)` from `estadisticos.py`.  `none`
models the empty-dict sentinel for empty input; the function never
raises. -/
def generar_histograma (numeros : List ℚ) (bins : Nat) :
    Option HistogramaDatos :=
  if numeros = [] then none
  else
    let resultado := npHistograma numeros bins
    let edges := resultado.2
    some
      { frecuencias := resultado.1
        bins_edges := edges
        bins_centers := (List.range (edges.length - 1)).map
          (fun i => (edges.getD i 0 + edges.getD (i + 1) 0) / 2)
        ancho_bin := edges.getD 1 0 - edges.getD 0 0 }

/-- The dictionary returned by `calcular_estadisticos`
(`estadisticos.py`). -/
structure EstadisticosCompletos where
  n : Nat
  media : ℚ
  mediana : ℚ
  moda : List ℚ
  desviacion_estandar : ℝ
  varianza : ℚ
  minimo : ℚ
  maximo : ℚ
  rango : ℚ
  primer_cuartil : ℚ
  tercer_cuartil : ℚ
  rango_intercuartil : ℚ
  asimetria : ℝ
  curtosis : ℝ
  coeficiente_variacion : ℝ

open Classical in
/-- `calcular_estadisticos(numeros)` from `estadisticos.py`.  The outer
`Option` models exceptions (`none` = the call raises), the inner one the
empty-dict sentinel returned for empty input. -/
noncomputable def calcular_estadisticos (numeros : List ℚ) :
    Option (Option EstadisticosCompletos) :=
  if numeros = [] then some none
  else
    match calcular_moda numeros with
    | none => none
    | some moda =>
      some (some
        { n := numeros.length
          media := media numeros
          mediana := npMediana numeros
          moda := moda
          desviacion_estandar := Real.sqrt (varianza numeros)
          varianza := varianza numeros
          minimo := npMin numeros
          maximo := npMax numeros
          rango := npMax numeros - npMin numeros
          primer_cuartil := percentil numeros 25
          tercer_cuartil := percentil numeros 75
          rango_intercuartil := percentil numeros 75 - percentil numeros 25
          asimetria := calcular_asimetria numeros
          curtosis := calcular_curtosis numeros
          coeficiente_variacion :=
            if media numeros ≠ 0
            then Real.sqrt (varianza numeros) / ((media numeros : ℚ) : ℝ)
            else 0 })

lemma sum_const_list (xs : List ℚ) (c : ℚ) (h : ∀ y ∈ xs, y = c) :
    xs.sum = (xs.length : ℚ) * c := by
  induction xs with
  | nil => simp
  | cons x t ih =>
    have hx : x = c := h x (by simp)
    have ht : ∀ y ∈ t, y = c := fun y hy => h y (by simp [hy])
    simp [hx, ih ht]
    ring

lemma media_const (xs : List ℚ) (c : ℚ) (hne : xs ≠ [])
    (h : ∀ y ∈ xs, y = c) : media xs = c := by
  have hlen : (xs.length : ℚ) ≠ 0 := by
    have : xs.length ≠ 0 := fun hl => hne (List.length_eq_zero.mp hl)
    exact_mod_cast this
  rw [media, sum_const_list xs c h, mul_comm, mul_div_assoc, div_self hlen,
    mul_one]

lemma varianza_const (xs : List ℚ) (c : ℚ) (hne : xs ≠ [])
    (h : ∀ y ∈ xs, y = c) : varianza xs = 0 := by
  have hm := media_const xs c hne h
  have hz : ∀ z ∈ xs.map (fun x => (x - media xs) ^ 2), z = 0 := by
    intro z hz
    rcases List.mem_map.mp hz with ⟨y, hy, rfl⟩
    rw [hm, h y hy]
    ring
  rw [varianza, List.sum_eq_zero hz, zero_div]

lemma foldl_apariciones_ne_nil (l : List ℚ) (acc : List ℚ) (hacc : acc ≠ []) :
    l.foldl (fun acc x => if x ∈ acc then acc else acc ++ [x]) acc ≠ [] := by
  induction l generalizing acc with
  | nil => simpa
  | cons x t ih =>
    simp only [List.foldl_cons]
    by_cases hx : x ∈ acc
    · simpa [hx] using ih acc hacc
    · simpa [hx] using ih (acc ++ [x]) (by simp)

lemma primerasApariciones_ne_nil (xs : List ℚ) (hne : xs ≠ []) :
    primerasApariciones xs ≠ [] := by
  cases xs with
  | nil => exact absurd rfl hne
  | cons x t =>
    simpa [primerasApariciones] using
      foldl_apariciones_ne_nil t [x] (by simp)

lemma calcular_moda_isSome (xs : List ℚ) (hne : xs ≠ []) :
    (calcular_moda xs).isSome := by
  unfold calcular_moda
  have h1 : primerasApariciones xs ≠ [] := primerasApariciones_ne_nil xs hne
  cases hcl : primerasApariciones xs with
  | nil => exact absurd hcl h1
  | cons k ks => simp [hcl, pyMaxNat]

lemma calcular_asimetria_corta (xs : List ℚ) (h3 : xs.length < 3) :
    calcular_asimetria xs = 0 := by
  simp [calcular_asimetria, h3]

lemma calcular_asimetria_constante (xs : List ℚ) (c : ℚ)
    (h : ∀ y ∈ xs, y = c) : calcular_asimetria xs = 0 := by
  unfold calcular_asimetria
  by_cases h3 : xs.length < 3
  · simp [h3]
  · have hne : xs ≠ [] := by
      intro hx
      subst hx
      simp at h3
    simp [h3, varianza_const xs c hne h, Real.sqrt_zero]

lemma calcular_curtosis_corta (xs : List ℚ) (h4 : xs.length < 4) :
    calcular_curtosis xs = 0 := by
  simp [calcular_curtosis, h4]

lemma calcular_curtosis_constante (xs : List ℚ) (c : ℚ)
    (h : ∀ y ∈ xs, y = c) : calcular_curtosis xs = 0 := by
  unfold calcular_curtosis
  by_cases h4 : xs.length < 4
  · simp [h4]
  · have hne : xs ≠ [] := by
      intro hx
      subst hx
      simp at h4
    simp [h4, varianza_const xs c hne h, Real.sqrt_zero]

/-- Claim C5, amended.  The statistics engine never raises on empty or
degenerate input and returns sentinel empty/zero results, **except** the
standalone mode operation: `calcular_moda` raises `ValueError` on the
empty list (see the counterexample) and never raises on non-empty input.
`calcular_estadisticos` itself never raises (its empty-input guard runs
before `calcular_moda`), and returns the empty sentinel on `[]`;
skewness and kurtosis return `0.0` on short and on constant input;
the histogram returns the empty sentinel on `[]` and a filled report
otherwise. -/
theorem C5_motor_estadistico_sin_excepciones :
    (∀ xs : List ℚ, (calcular_estadisticos xs).isSome) ∧
    calcular_estadisticos [] = some none ∧
    (∀ xs : List ℚ, xs ≠ [] → (calcular_moda xs).isSome) ∧
    (∀ xs : List ℚ, xs.length < 3 → calcular_asimetria xs = 0) ∧
    (∀ (xs : List ℚ) (c : ℚ), (∀ y ∈ xs, y = c) → calcular_asimetria xs = 0) ∧
    (∀ xs : List ℚ, xs.length < 4 → calcular_curtosis xs = 0) ∧
    (∀ (xs : List ℚ) (c : ℚ), (∀ y ∈ xs, y = c) → calcular_curtosis xs = 0) ∧
    generar_histograma [] 10 = none ∧
    (∀ xs : List ℚ, xs ≠ [] → (generar_histograma xs 10).isSome) := by
  refine ⟨?_, ?_, calcular_moda_isSome, calcular_asimetria_corta,
    calcular_asimetria_constante, calcular_curtosis_corta,
    calcular_curtosis_constante, ?_, ?_⟩
  · intro xs
    unfold calcular_estadisticos
    by_cases hxs : xs = []
    · simp [hxs]
    · have hm := calcular_moda_isSome xs hxs
      cases hmm : calcular_moda xs with
      | none => rw [hmm] at hm; simp at hm
      | some l => simp [hxs, hmm]
  · rfl
  · rfl
  · intro xs hxs
    simp [generar_histograma, hxs]

/-- Witness for C5 at concrete inputs: mode on `[1]`, skewness on the
constant list `[2, 2, 2]`, kurtosis on `[3]`, histogram on `[1]`. -/
theorem C5_motor_estadistico_sin_excepciones_witness :
    (calcular_moda [1]).isSome ∧ calcular_asimetria [2, 2, 2] = 0 ∧
    calcular_curtosis [3] = 0 ∧ (generar_histograma [1] 10).isSome :=
  ⟨C5_motor_estadistico_sin_excepciones.2.2.1 [1] (by decide),
   C5_motor_estadistico_sin_excepciones.2.2.2.2.1 [2, 2, 2] 2 (by
     intro y hy
     simpa using hy),
   C5_motor_estadistico_sin_excepciones.2.2.2.2.2.1 [3] (by decide),
   C5_motor_estadistico_sin_excepciones.2.2.2.2.2.2.2.2 [1] (by decide)⟩

/-- Counterexample for C5 as stated: the mode operation applied to the
empty sequence raises `ValueError` (Python `max` of an empty `Counter`),
modelled as `none`, rather than returning a sentinel result. -/
theorem C5_contraejemplo_moda_vacia : calcular_moda [] = none := rfl

/-! ### Parameter and tabular-data validators (`validaciones.py`).
Error-message strings follow the source (surrounding quote characters of
the Python messages elided). -/

def msgSemilla : String := "La semilla debe ser un número positivo"

def msgCantidad : String := "La cantidad de números debe estar entre 10 y 100,000"

def msgModulo : String := "El módulo m debe ser un número positivo"

def msgMultRequerido : String := "El multiplicador a es requerido"

def msgMultPositivo : String := "El multiplicador a debe ser positivo"

def msgIncRequerido : String := "El incremento c es requerido"

def msgIncNoNegativo : String := "El incremento c debe ser no negativo"

def msgModuloSemilla : String := "El módulo m debe ser mayor que la semilla"

def msgCuadRequerido : String :=
  "El coeficiente cuadrático a es requerido y no puede ser cero"

def msgLinealRequerido : String := "El coeficiente lineal b es requerido"

def msgConstRequerido : String := "El término constante c es requerido"

def msgTipoInvalido (tipo : String) : String :=
  "Tipo de generador no válido: " ++ tipo

/-- The parameter mapping handed to `validar_parametros_congruencial`;
`none` models an absent dictionary key (present values are integers). -/
structure ParametrosCongruencial where
  semilla : Option Int
  cantidad : Option Int
  n : Option Int
  m : Option Int
  a : Option Int
  b : Option Int
  c : Option Int
  c_const : Option Int

/-- `parametros.get('cantidad', parametros.get('n', 1))`. -/
def cantidadResuelta (p : ParametrosCongruencial) : Int :=
  (p.cantidad.orElse (fun _ => p.n)).getD 1

/-- Rule: `semilla is None or semilla <= 0`. -/
def reglaSemilla (p : ParametrosCongruencial) : List String :=
  match p.semilla with
  | none => [msgSemilla]
  | some s => if s ≤ 0 then [msgSemilla] else []

/-- Rule: `n < 10 or n > 100000`. -/
def reglaCantidad (p : ParametrosCongruencial) : List String :=
  if cantidadResuelta p < 10 ∨ cantidadResuelta p > 100000
  then [msgCantidad] else []

/-- Rule: `m is None or m <= 0`. -/
def reglaModulo (p : ParametrosCongruencial) : List String :=
  match p.m with
  | none => [msgModulo]
  | some mv => if mv ≤ 0 then [msgModulo] else []

/-- Rule: `a is None` / `a <= 0` (linear and multiplicative types). -/
def reglaMultiplicador (p : ParametrosCongruencial) : List String :=
  match p.a with
  | none => [msgMultRequerido]
  | some av => if av ≤ 0 then [msgMultPositivo] else []

/-- Rule: `c is None` / `c < 0` (linear type). -/
def reglaIncremento (p : ParametrosCongruencial) : List String :=
  match p.c with
  | none => [msgIncRequerido]
  | some cv => if cv < 0 then [msgIncNoNegativo] else []

/-- Rule: `if m and semilla and m <= semilla` — Python truthiness: both
present and nonzero, then the comparison. -/
def reglaModuloSemilla (p : ParametrosCongruencial) : List String :=
  match p.m, p.semilla with
  | some mv, some s =>
      if mv ≠ 0 ∧ s ≠ 0 ∧ mv ≤ s then [msgModuloSemilla] else []
  | _, _ => []

/-- Rule: `a is None or a == 0` (quadratic type). -/
def reglaCuadratico (p : ParametrosCongruencial) : List String :=
  match p.a with
  | none => [msgCuadRequerido]
  | some av => if av = 0 then [msgCuadRequerido] else []

/-- Rule: `b is None` (quadratic type). -/
def reglaLinealB (p : ParametrosCongruencial) : List String :=
  match p.b with
  | none => [msgLinealRequerido]
  | some _ => []

/-- Rule: `c_const is None` (quadratic type). -/
def reglaConstante (p : ParametrosCongruencial) : List String :=
  match p.c_const with
  | none => [msgConstRequerido]
  | some _ => []

/-- `validar_parametros_congruencial(tipo, parametros)` from
`validaciones.py`: sequentially appends every violated rule's message to
`errores` (no early return) and finishes with
`(len(errores) == 0, errores)`. -/
def validar_parametros_congruencial (tipo : String)
    (p : ParametrosCongruencial) : Bool × List String :=
  let errores : List String := []
  let errores := errores ++ reglaSemilla p
  let errores := errores ++ reglaCantidad p
  let errores := errores ++ reglaModulo p
  let errores := errores ++
    (if tipo = "lineal" then
       reglaMultiplicador p ++ reglaIncremento p ++ reglaModuloSemilla p
     else if tipo = "multiplicativo" then
       reglaMultiplicador p ++ reglaModuloSemilla p
     else if tipo = "cuadratico" then
       reglaCuadratico p ++ reglaLinealB p ++ reglaConstante p
     else [msgTipoInvalido tipo])
  (errores.length == 0, errores)

/-- The complete list of violated parameter rules, written as one
concatenation of the independent rule checks: the specification form of
"returns the complete error list". -/
def erroresCompletos (tipo : String) (p : ParametrosCongruencial) :
    List String :=
  reglaSemilla p ++ reglaCantidad p ++ reglaModulo p ++
    (if tipo = "lineal" then
       reglaMultiplicador p ++ reglaIncremento p ++ reglaModuloSemilla p
     else if tipo = "multiplicativo" then
       reglaMultiplicador p ++ reglaModuloSemilla p
     else if tipo = "cuadratico" then
       reglaCuadratico p ++ reglaLinealB p ++ reglaConstante p
     else [msgTipoInvalido tipo])

lemma validar_parametros_eq (tipo : String) (p : ParametrosCongruencial) :
    validar_parametros_congruencial tipo p =
      ((erroresCompletos tipo p).length == 0, erroresCompletos tipo p) := by
  simp [validar_parametros_congruencial, erroresCompletos, List.append_assoc]

/-- A pandas column: name, numeric dtype flag, and cells (`none` is a
missing value). -/
structure Columna where
  nombre : String
  numerica : Bool
  celdas : List (Option ℚ)

/-- A pandas `DataFrame`, as consumed by `validar_dataframe`. -/
structure DataFrame where
  columnas : List Columna
  nfilas : Nat

/-- `df.empty`: some axis has length `0`. -/
def dfVacio (df : DataFrame) : Bool :=
  df.columnas.isEmpty || df.nfilas == 0

def msgDfVacio : String := "El DataFrame está vacío"

def msgColumnaFaltante (col : String) : String :=
  "Columna requerida no encontrada: " ++ col

def msgSinNumericas : String :=
  "No se encontraron columnas numéricas en el archivo"

def msgNulos (cols : List String) : String :=
  "Se encontraron valores nulos en las columnas: " ++
    String.intercalate ", " cols

def nombresColumnas (df : DataFrame) : List String :=
  df.columnas.map (fun col => col.nombre)

/-- Rule: one message per required column absent from `df.columns`. -/
def reglaColumnasRequeridas (df : DataFrame) (requeridas : List String) :
    List String :=
  (requeridas.filter (fun col => !(nombresColumnas df).contains col)).map
    msgColumnaFaltante

/-- `df.select_dtypes(include=[np.number]).empty`: no numeric column, or
no rows. -/
def sinNumericas (df : DataFrame) : Bool :=
  (df.columnas.filter (fun col => col.numerica)).isEmpty || df.nfilas == 0

/-- Rule: the numeric-columns sub-frame is empty. -/
def reglaNumericas (df : DataFrame) : List String :=
  if sinNumericas df then [msgSinNumericas] else []

def columnasConNulos (df : DataFrame) : List String :=
  (df.columnas.filter (fun col => col.celdas.any (fun cel => cel.isNone))).map
    (fun col => col.nombre)

/-- Rule: `df.isnull().any().any()`, reported as one message listing the
offending columns. -/
def reglaNulos (df : DataFrame) : List String :=
  if columnasConNulos df = [] then [] else [msgNulos (columnasConNulos df)]

/-- `validar_dataframe(df, columnas_requeridas)` from `validaciones.py`.
Note the early `return False, errores` as soon as the frame is empty. -/
def validar_dataframe (df : DataFrame) (requeridas : List String) :
    Bool × List String :=
  if dfVacio df then (false, [msgDfVacio])
  else
    let errores := ([] : List String) ++ reglaColumnasRequeridas df requeridas
    let errores := errores ++ reglaNumericas df
    let errores := errores ++ reglaNulos df
    (errores.length == 0, errores)

/-- The complete list of violated tabular rules (specification form: no
early return). -/
def erroresCompletosDf (df : DataFrame) (requeridas : List String) :
    List String :=
  (if dfVacio df then [msgDfVacio] else []) ++
    reglaColumnasRequeridas df requeridas ++ reglaNumericas df ++
    reglaNulos df

/-- An empty frame (one numeric column `a`, zero rows). -/
def dfEjemplo : DataFrame := ⟨[⟨"a", true, []⟩], 0⟩

/-- A one-row frame with a single numeric column `x`. -/
def dfFilaEjemplo : DataFrame := ⟨[⟨"x", true, [some 1]⟩], 1⟩

/-- Claim C7, amended.  The parameter validator returns the complete
list of all violated rules for every input, and its `is_valid` flag is
`true` iff that list is empty; `validar_dataframe` obeys the same
`is_valid` contract, but returns the complete rule-violation list only
for non-empty frames — on an empty frame it short-circuits to the single
emptiness error (see the counterexample). -/
theorem C7_validadores_lista_completa :
    (∀ (tipo : String) (p : ParametrosCongruencial),
      validar_parametros_congruencial tipo p =
        ((erroresCompletos tipo p).length == 0, erroresCompletos tipo p)) ∧
    (∀ (tipo : String) (p : ParametrosCongruencial),
      (validar_parametros_congruencial tipo p).1 = true ↔
        (validar_parametros_congruencial tipo p).2 = []) ∧
    (∀ (df : DataFrame) (req : List String), dfVacio df = false →
      validar_dataframe df req =
        ((erroresCompletosDf df req).length == 0, erroresCompletosDf df req)) ∧
    (∀ (df : DataFrame) (req : List String),
      (validar_dataframe df req).1 = true ↔
        (validar_dataframe df req).2 = []) := by
  refine ⟨validar_parametros_eq, ?_, ?_, ?_⟩
  · intro tipo p
    rw [validar_parametros_eq]
    simp [List.length_eq_zero]
  · intro df req hdf
    simp [validar_dataframe, erroresCompletosDf, hdf, List.append_assoc]
  · intro df req
    unfold validar_dataframe
    by_cases hdf : dfVacio df = true
    · simp [hdf]
    · simp only [Bool.not_eq_true] at hdf
      simp [hdf, List.length_eq_zero]

/-- Witness for C7 (third conjunct) at a non-empty one-column frame. -/
theorem C7_validadores_lista_completa_witness :
    validar_dataframe dfFilaEjemplo ["x"] =
      ((erroresCompletosDf dfFilaEjemplo ["x"]).length == 0,
        erroresCompletosDf dfFilaEjemplo ["x"]) :=
  C7_validadores_lista_completa.2.2.1 dfFilaEjemplo ["x"] (by decide)

/-- Counterexample for C7 as stated: on the empty frame `dfEjemplo` with
required column `b`, `validar_dataframe` reports only the emptiness
error, although the missing-column rule is also violated (its message
appears in the complete list but not in the returned one): the
tabular-data validator does partially validate. -/
theorem C7_contraejemplo_dataframe_vacio :
    validar_dataframe dfEjemplo ["b"] = (false, [msgDfVacio]) ∧
    msgColumnaFaltante "b" ∈ erroresCompletosDf dfEjemplo ["b"] ∧
    msgColumnaFaltante "b" ∉ (validar_dataframe dfEjemplo ["b"]).2 := by
  refine ⟨by decide, by decide, by decide⟩

/-- Valid linear parameters (`semilla 1, cantidad 20, m 16, a 5, c 3`). -/
def parametrosLinealEjemplo : ParametrosCongruencial :=
  ⟨some 1, some 20, none, some 16, some 5, none, some 3, none⟩

/-- Quadratic parameters with `semilla 20 > m 16`, all quadratic rules
satisfied. -/
def parametrosCuadraticoEjemplo : ParametrosCongruencial :=
  ⟨some 20, some 50, none, some 16, some 1, some 0, none, some 1⟩

/-- Claim C8, amended.  For the linear and multiplicative generator
types, every parameter set marked valid has modulus strictly greater
than seed; the quadratic branch of the validator performs no such check,
so the invariant fails for the quadratic type (see the
counterexample). -/
theorem C8_modulo_mayor_semilla (tipo : String)
    (p : ParametrosCongruencial) (s mv : Int)
    (htipo : tipo = "lineal" ∨ tipo = "multiplicativo")
    (hval : (validar_parametros_congruencial tipo p).1 = true)
    (hs : p.semilla = some s) (hm : p.m = some mv) : s < mv := by
  rw [validar_parametros_eq] at hval
  have herr : erroresCompletos tipo p = [] := by
    simpa [List.length_eq_zero] using hval
  have hsem : ¬(s ≤ 0) := by
    rcases List.append_eq_nil.mp
      (List.append_eq_nil.mp (List.append_eq_nil.mp herr).1).1 with ⟨h1, _⟩
    simp [reglaSemilla, hs] at h1
    omega
  have hmod : ¬(mv ≤ 0) := by
    have h3 := (List.append_eq_nil.mp (List.append_eq_nil.mp herr).1).2
    simp [reglaModulo, hm] at h3
    omega
  have hms : reglaModuloSemilla p = [] := by
    have h4 := (List.append_eq_nil.mp herr).2
    rcases htipo with rfl | rfl
    · simp only [reduceIte] at h4
      exact (List.append_eq_nil.mp h4).2
    · simp only [reduceIte] at h4
      exact (List.append_eq_nil.mp h4).2
  simp [reglaModuloSemilla, hs, hm] at hms
  omega

/-- Witness for C8 at the valid linear parameter set
`parametrosLinealEjemplo`. -/
theorem C8_modulo_mayor_semilla_witness : (1 : Int) < 16 :=
  C8_modulo_mayor_semilla "lineal" parametrosLinealEjemplo 1 16
    (Or.inl rfl) (by decide) rfl rfl

/-- Counterexample for C8 as stated: the quadratic parameter set with
seed `20` and modulus `16` is marked valid although the modulus is not
greater than the seed. -/
theorem C8_contraejemplo_cuadratico :
    (validar_parametros_congruencial "cuadratico"
        parametrosCuadraticoEjemplo).1 = true ∧
    parametrosCuadraticoEjemplo.semilla = some 20 ∧
    parametrosCuadraticoEjemplo.m = some 16 ∧
    ¬((20 : Int) < 16) := by
  refine ⟨by decide, rfl, rfl, by decide⟩

/-! ### Statistical tests (`prueba_uniformidad` in `congruenciales.py`;
`prueba_bondad_ajuste`, `correlacion_serial`, `prueba_aleatoriedad` in
`estadisticos.py`).  Availability of the optional libraries is a `Bool`
parameter; the library statistics themselves (`stats.kstest`,
`stats.chisquare`, `stats.shapiro`, `stats.norm.cdf`) are opaque
function parameters, since they are external to the repository.
Formatted `p=...` suffixes of the interpretation strings are elided. -/

def msgScipy : String := "Scipy no disponible para pruebas estadísticas"

def msgInterpUniformidad : String :=
  "No se pudo realizar la prueba de uniformidad"

def msgInterpBondad : String :=
  "No se pudo realizar la prueba de bondad de ajuste"

def msgStatsmodels : String :=
  "Statsmodels no disponible para prueba de rachas"

def msgInterpRachas : String :=
  "No se pudo realizar la prueba de aleatoriedad"

/-- The dictionary shapes `prueba_uniformidad` can return. -/
inductive ResultadoUnif
  | ok (estadistico_d p_valor : ℚ) (uniforme : Bool)
      (nivel_significancia : ℚ) (interpretacion : String)
  | fallback (error interpretacion : String)

/-- `prueba_uniformidad(numeros, alpha)` from `congruenciales.py`.  The
statement `from scipy import stats` stands **before** the try-block, so
a missing scipy raises `ImportError` out of the function (= `none`); the
`except ImportError` fallback dictionary is unreachable. -/
def prueba_uniformidad (scipyDisponible : Bool)
    (kstest : List ℚ → ℚ × ℚ) (numeros : List ℚ) (alpha : ℚ) :
    Option ResultadoUnif :=
  if scipyDisponible = false then none
  else
    let res := kstest numeros
    some (.ok res.1 res.2 (decide (alpha < res.2)) alpha
      ("Los números son " ++
        (if alpha < res.2 then "uniformemente distribuidos"
         else "no uniformemente distribuidos")))

/-- The dictionary shapes `prueba_bondad_ajuste` can return. -/
inductive ResultadoBondad
  | chiCuadrado (estadistico_chi2 p_valor : ℚ) (distribucion : String)
      (ajuste_adecuado : Bool) (interpretacion : String)
  | shapiroWilk (estadistico_w p_valor : ℚ) (distribucion : String)
      (ajuste_adecuado : Bool) (interpretacion : String)

/-- `prueba_bondad_ajuste(numeros, distribucion)` from
`estadisticos.py`.  As in `prueba_uniformidad`, `from scipy import
stats` precedes the try-block, so a missing scipy raises (outer
`none`).  An unrecognized distribution name falls off the end of the
try-block and returns Python `None` (inner `none`).  The expected
frequencies `np.full_like(frec_obs, len(numeros)/10)` inherit the int
dtype of `frec_obs`, truncating `len/10`. -/
def prueba_bondad_ajuste (scipyDisponible : Bool)
    (chisquare : List Nat → List Nat → ℚ × ℚ)
    (shapiroTest : List ℚ → ℚ × ℚ) (numeros : List ℚ)
    (distribucion : String) : Option (Option ResultadoBondad) :=
  if scipyDisponible = false then none
  else if distribucion = "uniforme" then
    let frecObs := (npHistograma numeros 10).1
    let frecEsp := frecObs.map (fun _ => numeros.length / 10)
    let res := chisquare frecObs frecEsp
    some (some (.chiCuadrado res.1 res.2 distribucion
      (decide ((0.05 : ℚ) < res.2))
      ("Los números se ajustan " ++
        (if (0.05 : ℚ) < res.2 then "adecuadamente" else "inadecuadamente")
        ++ " a una distribución uniforme")))
  else if distribucion = "normal" then
    let res := shapiroTest numeros
    some (some (.shapiroWilk res.1 res.2 distribucion
      (decide ((0.05 : ℚ) < res.2))
      ("Los números se ajustan " ++
        (if (0.05 : ℚ) < res.2 then "adecuadamente" else "inadecuadamente")
        ++ " a una distribución normal")))
  else some none

/-- The covariance entry of `np.cov(x, y)` up to the normalization that
cancels in `np.corrcoef`. -/
def covarianza (x y : List ℚ) : ℚ :=
  ((x.zip y).map (fun par => (par.1 - media x) * (par.2 - media y))).sum /
    (x.length : ℚ)

/-- The `[0, 1]` entry of `np.corrcoef(x, y)` for same-length arrays:
`cov / (std x * std y)`.  (numpy yields NaN when a standard deviation is
zero; here the division by zero yields the junk value `0`, which no
theorem below depends on.) -/
noncomputable def pearson (x y : List ℚ) : ℝ :=
  ((covarianza x y : ℚ) : ℝ) /
    (Real.sqrt ((varianza x : ℚ) : ℝ) * Real.sqrt ((varianza y : ℚ) : ℝ))

/-- `correlacion_serial(numeros, lag)` from `estadisticos.py`: returns
`0.0` when `len(numeros) <= lag`; otherwise correlates
`numeros[:-lag]` with `numeros[lag:]`.  For `lag = 0` the slice
`numeros[:-0]` is `numeros[:0] = []`, so `np.corrcoef` receives arrays
of different lengths and raises `ValueError` (= `none`). -/
noncomputable def correlacion_serial (numeros : List ℚ) (lag : Nat) :
    Option ℝ :=
  if numeros.length ≤ lag then some 0
  else
    let x := if lag = 0 then [] else numeros.take (numeros.length - lag)
    let y := numeros.drop lag
    if x.length = y.length then some (pearson x y) else none

/-- The sign sequence of `prueba_aleatoriedad`: `1` if the value exceeds
the median, else `0`. -/
def secuenciaSignos (numeros : List ℚ) : List Nat :=
  numeros.map (fun x => if npMediana numeros < x then 1 else 0)

/-- Adjacent sign changes of the sequence. -/
def cambios : List Nat → Nat
  | a :: b :: resto => (if a ≠ b then 1 else 0) + cambios (b :: resto)
  | _ => 0

/-- The run counter of `prueba_aleatoriedad`: starts at `1`, adds one
per adjacent change. -/
def contarRachas (s : List Nat) : Nat := 1 + cambios s

/-- The dictionary shapes `prueba_aleatoriedad` can return. -/
inductive ResultadoRachas
  | ok (numero_rachas : Nat) (estadistico_z : ℝ) (p_valor : ℝ)
      (aleatorio : Bool) (interpretacion : String)
  | fallback (error interpretacion : String)

/-- A concrete stand-in for `stats.norm.cdf` used at concrete inputs. -/
noncomputable def cdfCero : ℝ → ℝ := fun _ => 0

open Classical in
/-- `prueba_aleatoriedad(numeros)` from `estadisticos.py`.  Both library
imports sit **inside** the try-block, so either library being missing is
caught by `except ImportError` and yields the structured fallback
dictionary.  The two integer divisions raise `ZeroDivisionError`
(= `none`) when their denominators vanish, i.e. for sequences of length
`0` (first division) or `1` (variance denominator).  The variance is
nonnegative whenever it is computed, so `math.sqrt` never raises. -/
noncomputable def prueba_aleatoriedad (statsmodelsDisponible scipyDisponible : Bool)
    (normCdf : ℝ → ℝ) (numeros : List ℚ) : Option ResultadoRachas :=
  if statsmodelsDisponible = false then
    some (.fallback msgStatsmodels msgInterpRachas)
  else
    let secuencia := secuenciaSignos numeros
    let rachas := contarRachas secuencia
    let n1 : Nat := secuencia.sum
    let n2 : Nat := secuencia.length - n1
    if n1 + n2 = 0 then none
    else
      let media_rachas : ℚ := (2 * n1 * n2 : ℚ) / ((n1 : ℚ) + (n2 : ℚ)) + 1
      if (n1 + n2) ^ 2 * (n1 + n2 - 1) = 0 then none
      else
        let varianza_rachas : ℚ :=
          (2 * (n1 : ℚ) * (n2 : ℚ) *
            (2 * (n1 : ℚ) * (n2 : ℚ) - (n1 : ℚ) - (n2 : ℚ))) /
          (((n1 : ℚ) + (n2 : ℚ)) ^ 2 * ((n1 : ℚ) + (n2 : ℚ) - 1))
        let z : ℝ :=
          if varianza_rachas = 0 then 0
          else (((rachas : ℚ) : ℝ) - ((media_rachas : ℚ) : ℝ)) /
            Real.sqrt ((varianza_rachas : ℚ) : ℝ)
        if scipyDisponible = false then
          some (.fallback msgStatsmodels msgInterpRachas)
        else
          let p_valor : ℝ := 2 * (1 - normCdf |z|)
          some (.ok rachas z p_valor
            (if (0.05 : ℝ) < p_valor then true else false)
            ("La secuencia es " ++
              (if (0.05 : ℝ) < p_valor then "aleatoria" else "no aleatoria")))

/-- Claim C6 (code bug).  The intent — documented by the
`except ImportError` handlers and their fallback dictionaries — is that
every test function tolerates a missing optional library.  But in
`prueba_uniformidad` and `prueba_bondad_ajuste` the `from scipy import
stats` statement stands before the `try`, so a missing scipy raises
`ImportError` out of the function and the handler is dead code; only
`prueba_aleatoriedad` (imports inside the `try`) returns the structured
fallback. -/
theorem C6_dependencia_opcional_no_capturada :
    prueba_uniformidad false (fun _ => (0, 0)) [0.1, 0.2] 0.05 = none ∧
    prueba_bondad_ajuste false (fun _ _ => (0, 0)) (fun _ => (0, 0))
      [0.1, 0.2] "uniforme" = none ∧
    prueba_aleatoriedad false true cdfCero [0.1, 0.2] =
      some (.fallback msgStatsmodels msgInterpRachas) :=
  ⟨rfl, rfl, rfl⟩

/-- Claim C9, amended.  `correlacion_serial` returns `0.0` whenever
`len(seq) <= k`; for every lag `k ≥ 1` with `k < len(seq)` it returns
the Pearson correlation of `seq[0:n-k]` and `seq[k:n]`.  (The original
claim also covered `k = 0` with a non-empty sequence, where the code
slices `numeros[:-0] = []` and `np.corrcoef` raises `ValueError` — see
the counterexample.) -/
theorem C9_correlacion_serial (xs : List ℚ) (k : Nat) :
    (xs.length ≤ k → correlacion_serial xs k = some 0) ∧
    (1 ≤ k → k < xs.length →
      correlacion_serial xs k =
        some (pearson (xs.take (xs.length - k)) (xs.drop k))) := by
  constructor
  · intro hle
    simp [correlacion_serial, hle]
  · intro hk hlt
    have hnle : ¬(xs.length ≤ k) := by omega
    have hk0 : ¬(k = 0) := by omega
    have hlen : (xs.take (xs.length - k)).length = (xs.drop k).length := by
      simp
    simp [correlacion_serial, hnle, hk0, hlen]

/-- Witness for C9: the guard value on `[1]` with lag `2`, and the
correlated slices on `[1, 2, 3]` with lag `1`. -/
theorem C9_correlacion_serial_witness :
    correlacion_serial [1] 2 = some 0 ∧
    correlacion_serial [1, 2, 3] 1 =
      some (pearson ([1, 2, 3].take 2) ([1, 2, 3].drop 1)) :=
  ⟨(C9_correlacion_serial [1] 2).1 (by decide),
   (C9_correlacion_serial [1, 2, 3] 1).2 (by decide) (by decide)⟩

/-- Counterexample for C9 as stated: at lag `0` with the sequence
`[1, 2]` (so `n > k`), the code does not return the Pearson coefficient
of `seq[0:2]` with itself — it raises `ValueError` (= `none`), because
`numeros[:-0]` is the empty slice. -/
theorem C9_contraejemplo_lag_cero : correlacion_serial [1, 2] 0 = none := rfl

lemma cambios_alternante (s : List Nat)
    (h : List.Chain' (fun a b => a ≠ b) s) : cambios s = s.length - 1 := by
  induction s with
  | nil => rfl
  | cons a resto ih =>
    cases resto with
    | nil => rfl
    | cons b resto2 =>
      rcases List.chain'_cons.mp h with ⟨hab, hresto⟩
      have hih := ih hresto
      simp only [cambios, if_pos hab, List.length_cons] at hih ⊢
      omega

lemma contarRachas_alternante (s : List Nat) (hne : s ≠ [])
    (h : List.Chain' (fun a b => a ≠ b) s) : contarRachas s = s.length := by
  have hlen : 1 ≤ s.length := by
    cases s with
    | nil => exact absurd rfl hne
    | cons a resto => simp
  rw [contarRachas, cambios_alternante s h]
  omega

lemma sum_binaria_le (s : List Nat) (h : ∀ v ∈ s, v ≤ 1) :
    s.sum ≤ s.length := by
  induction s with
  | nil => simp
  | cons a resto ih =>
    have ha : a ≤ 1 := h a (by simp)
    have hr := ih (fun v hv => h v (by simp [hv]))
    simp only [List.sum_cons, List.length_cons]
    omega

lemma secuenciaSignos_sum_le (xs : List ℚ) :
    (secuenciaSignos xs).sum ≤ (secuenciaSignos xs).length := by
  apply sum_binaria_le
  intro v hv
  rcases List.mem_map.mp hv with ⟨y, _, rfl⟩
  split <;> omega

/-- Claim C10, amended.  For every sequence of length at least `2` whose
above-median sign sequence strictly alternates, the runs test (with both
libraries available) reports `numero_rachas` equal to the sequence
length.  (For a single-element sequence — whose sign sequence alternates
vacuously — the test raises `ZeroDivisionError` in the variance
denominator instead of reporting anything; see the counterexample.) -/
theorem C10_rachas_alternantes (normCdf : ℝ → ℝ) (xs : List ℚ)
    (h2 : 2 ≤ xs.length)
    (halt : List.Chain' (fun a b => a ≠ b) (secuenciaSignos xs)) :
    ∃ z p al interp,
      prueba_aleatoriedad true true normCdf xs =
        some (.ok xs.length z p al interp) := by
  have hslen : (secuenciaSignos xs).length = xs.length := by
    simp [secuenciaSignos]
  have hsum := secuenciaSignos_sum_le xs
  have hne : secuenciaSignos xs ≠ [] := by
    intro hx
    rw [hx] at hslen
    simp at hslen
    omega
  have hrachas : contarRachas (secuenciaSignos xs) = xs.length := by
    rw [contarRachas_alternante _ hne halt, hslen]
  have hg1 : ¬((secuenciaSignos xs).sum +
      ((secuenciaSignos xs).length - (secuenciaSignos xs).sum) = 0) := by
    omega
  have hg2sum : (secuenciaSignos xs).sum +
      ((secuenciaSignos xs).length - (secuenciaSignos xs).sum) =
        xs.length := by
    omega
  have hg2 : ¬(((secuenciaSignos xs).sum +
      ((secuenciaSignos xs).length - (secuenciaSignos xs).sum)) ^ 2 *
      ((secuenciaSignos xs).sum +
        ((secuenciaSignos xs).length - (secuenciaSignos xs).sum) - 1) = 0) := by
    rw [hg2sum]
    have h1 : xs.length ^ 2 ≠ 0 := by positivity
    have h2p : xs.length - 1 ≠ 0 := by omega
    exact Nat.mul_ne_zero h1 h2p
  unfold prueba_aleatoriedad
  simp only [Bool.true_eq_false, if_false, if_neg hg1, if_neg hg2, hrachas]
  exact ⟨_, _, _, _, rfl⟩

/-- Witness for C10 at `[0, 2, 1]`: the median is `1`, the sign sequence
`[0, 1, 0]` alternates, and the reported run count is `3`. -/
theorem C10_rachas_alternantes_witness :
    ∃ z p al interp,
      prueba_aleatoriedad true true cdfCero [0, 2, 1] =
        some (.ok ([0, 2, 1] : List ℚ).length z p al interp) :=
  C10_rachas_alternantes cdfCero [0, 2, 1] (by decide) (by
    have hseq : secuenciaSignos [0, 2, 1] = [0, 1, 0] := by decide
    rw [hseq]
    simp [List.chain'_cons])

/-- Counterexample for C10 as stated: the single-element sequence
`[5.0]` has a (vacuously) strictly alternating sign sequence, but the
runs test raises `ZeroDivisionError` (= `none`) — the variance
denominator `(n1+n2)^2 * (n1+n2-1)` is zero — so no run count is
reported at all. -/
theorem C10_contraejemplo_singleton :
    prueba_aleatoriedad true true cdfCero [5] = none := rfl

/-- Claim C1: `congruencial_lineal(semilla = 1, a = 5, c = 3, m = 16, n = 5)`
returns exactly the list `[0.5, 0.6875, 0.625, 0.3125, 0.75]`, following
the recurrence `x[i+1] = (5*x[i] + 3) mod 16` from seed `x[0] = 1`, with
each output `x[i+1]/16`. -/
theorem C1_congruencial_lineal_escenario :
    congruencial_lineal 1 5 3 16 5 =
      some [0.5, 0.6875, 0.625, 0.3125, 0.75] := by
  simp only [congruencial_lineal, loopCongruencial, pasoMod]
  norm_num [show Int.fmod 8 16 = 8 from by decide,
    show Int.fmod 43 16 = 11 from by decide,
    show Int.fmod 58 16 = 10 from by decide,
    show Int.fmod 53 16 = 5 from by decide,
    show Int.fmod 28 16 = 12 from by decide]

/-- Claim C2, amended.  For any integer parameters with positive modulus
`m`, each of the three generators returns (without raising) a list whose
every element lies in `[0, 1)` and whose length is `max n 0`; in
particular the length is exactly `n` whenever `n ≥ 0`.  (The original
claim asserted length `n` for **any** integer `n`; a negative `n` yields
the empty list, see the counterexample.) -/
theorem C2_generadores_rango_y_longitud (semilla a b c m n : Int)
    (hm : 0 < m) :
    (∃ l, congruencial_lineal semilla a c m n = some l ∧
       l.length = n.toNat ∧ ∀ q ∈ l, 0 ≤ q ∧ q < 1) ∧
    (∃ l, congruencial_multiplicativo semilla a m n = some l ∧
       l.length = n.toNat ∧ ∀ q ∈ l, 0 ≤ q ∧ q < 1) ∧
    (∃ l, congruencial_cuadratico semilla a b c m n = some l ∧
       l.length = n.toNat ∧ ∀ q ∈ l, 0 ≤ q ∧ q < 1) := by
  have hm0 : ¬(m = 0 ∧ 1 ≤ n) := fun h => absurd h.1 (ne_of_gt hm)
  refine ⟨⟨loopCongruencial (fun x => a * x + c) m semilla n.toNat, ?_,
            loopCongruencial_length _ _ _ _,
            loopCongruencial_mem_range _ hm _ _⟩,
          ⟨loopCongruencial (fun x => a * x) m semilla n.toNat, ?_,
            loopCongruencial_length _ _ _ _,
            loopCongruencial_mem_range _ hm _ _⟩,
          ⟨loopCongruencial (fun x => a * x ^ 2 + b * x + c) m semilla n.toNat, ?_,
            loopCongruencial_length _ _ _ _,
            loopCongruencial_mem_range _ hm _ _⟩⟩ <;>
    simp [congruencial_lineal, congruencial_multiplicativo,
      congruencial_cuadratico, hm0]

/-- Witness for C2 at `semilla = 1, a = 5, b = 7, c = 3, m = 16, n = 5`. -/
theorem C2_generadores_rango_y_longitud_witness :
    (0 : Int) < 16 ∧
    (∃ l, congruencial_lineal 1 5 3 16 5 = some l ∧
       l.length = (5 : Int).toNat ∧ ∀ q ∈ l, 0 ≤ q ∧ q < 1) :=
  ⟨by decide, (C2_generadores_rango_y_longitud 1 5 7 3 16 5 (by decide)).1⟩

/-- Counterexample for C2 as stated: with the positive modulus `m = 16`
and the integer count `n = -1`, `congruencial_lineal` returns the empty
list, whose length `0` is not the requested `n = -1`. -/
theorem C2_contraejemplo_longitud_negativa :
    congruencial_lineal 1 5 3 16 (-1) = some [] ∧
    (([] : List ℚ).length : Int) ≠ -1 := by
  constructor
  · simp [congruencial_lineal, loopCongruencial]
  · decide

/-- Claim C3, amended.  Each of the three generators terminates and
returns a list without raising for every finite integer input in which
the modulus is nonzero or the count is nonpositive; when `m = 0` and
`n ≥ 1` the first loop iteration raises `ZeroDivisionError` (see the
counterexample). -/
theorem C3_generadores_sin_excepcion (semilla a b c m n : Int)
    (h : m ≠ 0 ∨ n ≤ 0) :
    (congruencial_lineal semilla a c m n).isSome ∧
    (congruencial_multiplicativo semilla a m n).isSome ∧
    (congruencial_cuadratico semilla a b c m n).isSome := by
  have hm0 : ¬(m = 0 ∧ 1 ≤ n) := by
    rintro ⟨h1, h2⟩
    rcases h with h | h
    · exact h h1
    · omega
  simp [congruencial_lineal, congruencial_multiplicativo,
    congruencial_cuadratico, hm0]

/-- Witness for C3 at `semilla = 0, a = 0, b = 0, c = 0, m = -7, n = 3`
(zero and negative parameters, nonzero modulus). -/
theorem C3_generadores_sin_excepcion_witness :
    (congruencial_lineal 0 0 0 (-7) 3).isSome ∧
    (congruencial_multiplicativo 0 0 (-7) 3).isSome ∧
    (congruencial_cuadratico 0 0 0 0 (-7) 3).isSome :=
  C3_generadores_sin_excepcion 0 0 0 0 (-7) 3 (Or.inl (by decide))

/-- Counterexample for C3 as stated: with modulus `m = 0` and `n = 1`
every generator raises `ZeroDivisionError` (modelled as `none`) at the
first `% m`. -/
theorem C3_contraejemplo_modulo_cero :
    congruencial_lineal 1 1 1 0 1 = none ∧
    congruencial_multiplicativo 1 1 0 1 = none ∧
    congruencial_cuadratico 1 1 1 1 0 1 = none := by
  refine ⟨?_, ?_, ?_⟩ <;>
    simp [congruencial_lineal, congruencial_multiplicativo,
      congruencial_cuadratico]
